import Mathlib

/-!
Shallow embedding of the PIDA agent core (event pipeline) and proofs about it.

Conventions of the embedding:
* Python `datetime` values are abstracted to a `DateTime` structure exposing the
  observables the code actually reads: a total order (`epoch`, standing for the
  instant on the time line, compared wherever the code compares datetimes or
  serialises them with `isoformat`) and the wall-clock fields `weekday`, `hour`,
  `minute` read by the away-window check.
* Python `float` quantities (idle seconds, streaks, thresholds) are modelled as
  rationals `ℚ`; the claims under study concern branching logic, not rounding.
* Python `dict` detail payloads are modelled as insertion-ordered association
  lists with last-write-wins insertion, matching `{**d}` merge semantics.
* Randomly generated record ids (`uuid4().hex[:12]`) are opaque: functions that
  construct fresh records leave `id` empty; no claim depends on fresh ids.
-/

/-- Abstraction of a Python `datetime`: a point on the time line (`epoch`)
together with the wall-clock observables read by `_is_within_away_window`. -/
structure DateTime where
  epoch : Int
  weekday : Nat
  hour : Nat
  minute : Nat
  deriving DecidableEq

/-- `Severity` enum from `agent/models/alert.py`. -/
inductive Severity where
  | info | low | medium | high | critical
  deriving DecidableEq

/-- `Severity.value` (the `StrEnum` payload). -/
def Severity.value : Severity → String
  | .info => "INFO"
  | .low => "LOW"
  | .medium => "MEDIUM"
  | .high => "HIGH"
  | .critical => "CRITICAL"

/-- `SEVERITY_ORDER` from `agent/models/alert.py`. -/
def SEVERITY_ORDER : Severity → Nat
  | .info => 0
  | .low => 1
  | .medium => 2
  | .high => 3
  | .critical => 4

/-- `EventCategory` enum from `agent/models/event.py`. -/
inductive EventCategory where
  | file_system | user_input | session | system
  deriving DecidableEq

/-- `EventAction` enum from `agent/models/event.py` (16 concrete actions). -/
inductive EventAction where
  | file_created | file_modified | file_deleted | file_renamed | file_moved
  | input_detected | idle_started | active_during_away
  | session_logon | session_logoff | session_lock | session_unlock
  | session_rdp | login_failed
  | system_wake | system_sleep
  deriving DecidableEq

/-- `EventAction.value` (the `StrEnum` payload). -/
def EventAction.value : EventAction → String
  | .file_created => "file_created"
  | .file_modified => "file_modified"
  | .file_deleted => "file_deleted"
  | .file_renamed => "file_renamed"
  | .file_moved => "file_moved"
  | .input_detected => "input_detected"
  | .idle_started => "idle_started"
  | .active_during_away => "active_during_away"
  | .session_logon => "session_logon"
  | .session_logoff => "session_logoff"
  | .session_lock => "session_lock"
  | .session_unlock => "session_unlock"
  | .session_rdp => "session_rdp"
  | .login_failed => "login_failed"
  | .system_wake => "system_wake"
  | .system_sleep => "system_sleep"

/-- `MonitorSource` enum from `agent/models/event.py`. -/
inductive MonitorSource where
  | folder_monitor | input_monitor | session_monitor
  deriving DecidableEq

/-- `EventCategory.value`. -/
def EventCategory.value : EventCategory → String
  | .file_system => "file_system"
  | .user_input => "user_input"
  | .session => "session"
  | .system => "system"

/-- `MonitorSource.value`. -/
def MonitorSource.value : MonitorSource → String
  | .folder_monitor => "folder_monitor"
  | .input_monitor => "input_monitor"
  | .session_monitor => "session_monitor"

/-- JSON-serialisable values appearing in `detail` mappings: strings, ints
(Windows event-log ids) and rationals (float second counts). -/
inductive DVal where
  | s (v : String)
  | i (v : Int)
  | q (v : ℚ)
  deriving DecidableEq

/-- A Python `dict[str, ...]` detail payload as an insertion-ordered
association list with unique keys maintained by `Detail.set`. -/
abbrev Detail := List (String × DVal)

/-- `d[k] = v` on a Python dict: overwrite an existing key in place, else
append at the end. -/
def Detail.set (d : Detail) (k : String) (v : DVal) : Detail :=
  if (List.any d (fun p => p.1 = k)) then
    List.map (fun p => if p.1 = k then (k, v) else p) d
  else
    d ++ [(k, v)]

/-- `{**base, **upd}` merge: fold the updates into the base, last write wins. -/
def Detail.mergeFrom (base upd : Detail) : Detail :=
  List.foldl (fun acc p => Detail.set acc p.1 p.2) base upd

/-- Dict lookup (`d.get(k)`). -/
def Detail.get? (d : Detail) (k : String) : Option DVal :=
  Option.map Prod.snd (List.find? (fun p => p.1 = k) d)

/-- `TimelineEvent` from `agent/models/event.py`. -/
structure TimelineEvent where
  id : String
  source : MonitorSource
  category : EventCategory
  action : EventAction
  subject : String := ""
  target : String := ""
  detail : Detail := []
  severity : String := "INFO"
  timestamp : DateTime
  deriving DecidableEq

/-- `Alert` from `agent/models/alert.py`, restricted to the fields the engine
and notifiers write and read (`id`/`acknowledged`/`snoozed_until`/`created_at`
live in the store embedding as `AlertRow`). -/
structure Alert where
  severity : Severity
  message : String
  source : String
  detail : Detail
  deriving DecidableEq

/-- `AwayWindow` from `agent/models/config.py`. -/
structure AwayWindow where
  label : String := ""
  start_hour : Nat
  start_minute : Nat := 0
  end_hour : Nat
  end_minute : Nat := 0
  days : List Nat := [0, 1, 2, 3, 4, 5, 6]
  enabled : Bool := true
  deriving DecidableEq

/-- Body of the `for w in windows` loop of `_is_within_away_window`
(`agent/monitors/input_monitor.py`): does window `w` match the precomputed
`weekday` and minute-of-day `t`?  Note the source never reads `w.enabled`. -/
def awayWindowMatches (weekday : Nat) (t : Nat) (w : AwayWindow) : Bool :=
  if weekday ∉ w.days then
    false
  else
    let start := w.start_hour * 60 + w.start_minute
    let «end» := w.end_hour * 60 + w.end_minute
    if start ≤ «end» then
      decide (start ≤ t ∧ t < «end»)
    else
      decide (t ≥ start ∨ t < «end»)

/-- `_is_within_away_window(now, windows)` from `agent/monitors/input_monitor.py`:
return `True` on the first matching window, `False` if none matches. -/
def is_within_away_window (now : DateTime) (windows : List AwayWindow) : Bool :=
  List.any windows (awayWindowMatches now.weekday (now.hour * 60 + now.minute))

example : is_within_away_window ⟨0, 0, 12, 0⟩
    [{ start_hour := 9, end_hour := 17 }] = true := by decide

example : is_within_away_window ⟨0, 0, 20, 0⟩
    [{ start_hour := 9, end_hour := 17 }] = false := by decide

example : is_within_away_window ⟨0, 1, 3, 0⟩
    [{ start_hour := 23, end_hour := 6 }] = true := by decide

example : is_within_away_window ⟨0, 5, 12, 0⟩
    [{ start_hour := 9, end_hour := 17, days := [0, 1, 2, 3, 4] }] = false := by decide

/-- The five file actions tested by Rule 1 of `TimelineEngine._evaluate`. -/
def fileActions : List EventAction :=
  [.file_created, .file_modified, .file_deleted, .file_renamed, .file_moved]

/-- `TimelineEngine._evaluate` from `agent/engine/timeline.py`: evaluate the
four rules on one event against the configured away windows, appending one
alert per rule that fires.  `now = event.timestamp`; the `in_away` guard is
`_is_within_away_window(now, ws) if ws else False`.  Rules 2-4 build their
detail as the Python literal `{"event_id": event.id, **event.detail}`, so the
event's own `detail` entries overwrite the leading `event_id` binding. -/
def evaluate (away_windows : List AwayWindow) (event : TimelineEvent) : List Alert :=
  let in_away := if away_windows = [] then false
                 else is_within_away_window event.timestamp away_windows
  let r1 : List Alert :=
    if event.action ∈ fileActions ∧ in_away then
      [{ severity := .high
         message := "File " ++ event.action.value ++ " during away window: " ++ event.target
         source := event.source.value
         detail := [("event_id", DVal.s event.id), ("target", DVal.s event.target)] }]
    else []
  let r2 : List Alert :=
    if event.action = .active_during_away then
      [{ severity := .medium
         message := "Keyboard/mouse activity detected during away window"
         source := event.source.value
         detail := Detail.mergeFrom [("event_id", DVal.s event.id)] event.detail }]
    else []
  let r3 : List Alert :=
    if event.action = .login_failed then
      [{ severity := .high
         message := "Failed login attempt detected"
         source := event.source.value
         detail := Detail.mergeFrom [("event_id", DVal.s event.id)] event.detail }]
    else []
  let r4 : List Alert :=
    if event.action = .session_rdp ∧ in_away then
      [{ severity := .critical
         message := "Remote Desktop session during away window"
         source := event.source.value
         detail := Detail.mergeFrom [("event_id", DVal.s event.id)] event.detail }]
    else []
  r1 ++ r2 ++ r3 ++ r4

/-- One pass of the body of `InputMonitor._poll_loop`
(`agent/monitors/input_monitor.py`, the `try` block): given the configuration
(`poll_interval`, `streak_threshold`, `away_windows`), the current
`active_streak`, the sampled `idle` seconds and `now`, return the new streak
and the event published to the bus, if any.  Constructed events carry an
opaque fresh id (modelled as `""`) and `timestamp := now`. -/
def input_poll_step (poll_interval streak_threshold : ℚ)
    (away_windows : List AwayWindow) (active_streak idle : ℚ) (now : DateTime) :
    ℚ × Option TimelineEvent :=
  if idle < poll_interval then
    let streak := active_streak + poll_interval
    if streak ≥ streak_threshold ∧ ¬away_windows.isEmpty ∧
        is_within_away_window now away_windows then
      (0, some { id := ""
                 source := .input_monitor
                 category := .user_input
                 action := .active_during_away
                 detail := [("idle_seconds", DVal.q idle), ("streak_seconds", DVal.q streak)]
                 severity := "MEDIUM"
                 timestamp := now })
    else if streak = poll_interval then
      (streak, some { id := ""
                      source := .input_monitor
                      category := .user_input
                      action := .input_detected
                      detail := [("idle_seconds", DVal.q idle)]
                      timestamp := now })
    else
      (streak, none)
  else
    if active_streak > 0 then
      (0, some { id := ""
                 source := .input_monitor
                 category := .user_input
                 action := .idle_started
                 detail := [("last_active_streak", DVal.q active_streak)]
                 timestamp := now })
    else
      (0, none)

/-- A record dict returned by the event-log oracle (`read_log_fn` or the
native reader) to `SessionMonitor._poll_loop`: `event_id` is accessed with
`raw["event_id"]`, the rest with `raw.get(key, default)`. -/
structure RawRecord where
  event_id : Nat
  timestamp : Option DateTime := none
  source : Option String := none
  message : Option String := none
  deriving DecidableEq

/-- `_SECURITY_EVENTS` from `agent/monitors/session_monitor.py`. -/
def SECURITY_EVENTS : List (Nat × EventAction) :=
  [(4624, .session_logon), (4625, .login_failed), (4800, .session_lock), (4801, .session_unlock)]

/-- `_SYSTEM_EVENTS` from `agent/monitors/session_monitor.py`. -/
def SYSTEM_EVENTS : List (Nat × EventAction) :=
  [(1, .system_wake), (42, .system_sleep), (107, .system_wake)]

/-- `_RDP_EVENTS` from `agent/monitors/session_monitor.py`. -/
def RDP_EVENTS : List (Nat × EventAction) :=
  [(21, .session_rdp), (23, .session_logoff), (24, .session_rdp), (25, .session_rdp)]

/-- `_SECURITY_EVENTS.get(eid) or _SYSTEM_EVENTS.get(eid) or _RDP_EVENTS.get(eid)`. -/
def actionForEventId (eid : Nat) : Option EventAction :=
  match List.lookup eid SECURITY_EVENTS with
  | some a => some a
  | none =>
    match List.lookup eid SYSTEM_EVENTS with
    | some a => some a
    | none => List.lookup eid RDP_EVENTS

/-- The per-record branch of `SessionMonitor._poll_loop`: severity hint,
category assignment and `TimelineEvent` construction for one raw record
(`None` when the event id maps to no action and the record is skipped).
Fresh ids are opaque (`""`); `timestamp := raw.get("timestamp", now)`. -/
def sessionEventFor (now : DateTime) (raw : RawRecord) : Option TimelineEvent :=
  match actionForEventId raw.event_id with
  | none => none
  | some action =>
    let severity := if action = .login_failed then "HIGH"
                    else if action = .session_rdp then "MEDIUM"
                    else "INFO"
    some { id := ""
           source := .session_monitor
           category := if action ∉ [EventAction.system_wake, EventAction.system_sleep]
                       then .session else .system
           action := action
           detail := [("event_id", DVal.i (Int.ofNat raw.event_id)),
                      ("source", DVal.s (raw.source.getD "")),
                      ("message", DVal.s (raw.message.getD ""))]
           severity := severity
           timestamp := raw.timestamp.getD now }

set_option linter.unusedVariables false in
/-- One cycle of `SessionMonitor._poll_loop` (the `try` block): with the
previous high-water mark `since`, `now` captured at cycle start, and the
records returned by `_fetch_all(since)` (the concatenation of the three
oracle reads), return the events published to the bus in order and the new
`_last_read_time` (set to `now`).  The loop reads `since` only to hand it to
the oracle; it applies no timestamp filter of its own. -/
def session_poll_cycle (since now : DateTime) (records : List RawRecord) :
    List TimelineEvent × DateTime :=
  (records.filterMap (sessionEventFor now), now)

/-- An entry of the native Windows event-log stream as enumerated by
`_read_events_blocking` (newest first), abstracting `win32evtlog.ReadEventLog`
batches to one flat list in read order. -/
structure LogEntry where
  event_id : Nat
  time : DateTime
  source : String := ""
  message : String := ""
  deriving DecidableEq

/-- The native-oracle path of `_read_events_blocking`
(`agent/monitors/session_monitor.py`): walk the stream in read order, return
the accumulated results as soon as an entry with `ev_time <= since` is seen,
and otherwise keep entries whose event id is in `event_ids`. -/
def read_events_blocking (event_ids : List Nat) (since : DateTime) :
    List LogEntry → List RawRecord
  | [] => []
  | e :: rest =>
    if e.time.epoch ≤ since.epoch then
      []
    else if e.event_id ∈ event_ids then
      { event_id := e.event_id, timestamp := some e.time,
        source := some e.source, message := some e.message }
        :: read_events_blocking event_ids since rest
    else
      read_events_blocking event_ids since rest

/-- State of the `asyncio.Queue` owned by `EventBus`
(`agent/engine/event_bus.py`): `maxsize <= 0` means unbounded. -/
structure BusQueue where
  maxsize : Int
  items : List TimelineEvent
  deriving DecidableEq

/-- `asyncio.Queue.full()`. -/
def BusQueue.full (q : BusQueue) : Bool :=
  decide (0 < q.maxsize ∧ q.maxsize ≤ (q.items.length : Int))

/-- One step of `asyncio.Queue.put(item)` as awaited by `EventBus.publish`:
if the queue is bounded and full the caller suspends until space frees up
(no state change yet, and no exception is raised — the codebase defines no
`BackpressureExceeded`); otherwise the item is appended. -/
inductive PutOutcome where
  | enqueued (q : BusQueue)
  | suspended
  deriving DecidableEq

/-- `EventBus.publish(event)` = `await self._queue.put(event)`. -/
def publish (q : BusQueue) (event : TimelineEvent) : PutOutcome :=
  if q.full then .suspended
  else .enqueued { q with items := q.items ++ [event] }

/-- `EmailNotifier` state (`agent/alerts/email_notifier.py`): `_last_sent`
instant and the `_pending` list. -/
structure EmailState where
  last_sent : Option Int
  pending : List Alert
  deriving DecidableEq

/-- `EmailNotifier._send_batch`, parameterised by the outside world: `now` is
the wall clock after the SMTP attempt, `arrivals` are alerts appended to
`_pending` by concurrent `notify` calls while the SMTP send was awaited on
its worker thread, and `smtp_ok` tells whether `_send_smtp` raised.  Returns
the new state and the snapshot handed to SMTP (`none` when `_pending` was
empty and the function returned without sending). -/
def send_batch (st : EmailState) (now : Int) (arrivals : List Alert)
    (smtp_ok : Bool) : EmailState × Option (List Alert) :=
  if st.pending.isEmpty then
    (st, none)
  else
    let alerts := st.pending
    -- `self._pending.clear()` then concurrent appends during the await:
    let pendingDuringSend := arrivals
    if smtp_ok then
      ({ last_sent := some now, pending := pendingDuringSend }, some alerts)
    else
      -- `self._pending.extend(alerts)` on failure:
      ({ last_sent := st.last_sent, pending := pendingDuringSend ++ alerts }, some alerts)

/-- Subject line built by `_send_batch`. -/
def batchSubject (alerts : List Alert) : String :=
  "PIDA: " ++ toString alerts.length ++ " alert(s) — highest: "
    ++ (match alerts with | [] => "" | a :: _ => a.severity.value)

/-- A row of the `alerts` table as written by `insert_alert` and mutated by
`acknowledge_alert` / `snooze_alert` (`agent/db/database.py`).  ISO-8601
instants are compared as their `epoch`. -/
structure AlertRow where
  id : String
  severity : Severity
  message : String := ""
  source : String := ""
  detail : Detail := []
  acknowledged : Bool := false
  snoozed_until : Option Int := none
  created_at : Int := 0
  deriving DecidableEq

/-- `snooze_alert(alert_id, until)`: `UPDATE alerts SET snoozed_until = ?
WHERE id = ?`, returning `rowcount > 0`. -/
def snooze_alert (table : List AlertRow) (alert_id : String) («until» : Int) :
    List AlertRow × Bool :=
  (table.map (fun r => if r.id = alert_id then { r with snoozed_until := some «until» } else r),
   table.any (fun r => r.id = alert_id))

/-- Descending insertion by timestamp, modelling `ORDER BY timestamp DESC`
over ISO-8601 strings of UTC instants (which sort chronologically). -/
def insertByTsDesc (e : TimelineEvent) : List TimelineEvent → List TimelineEvent
  | [] => [e]
  | x :: xs =>
    if x.timestamp.epoch ≤ e.timestamp.epoch then e :: x :: xs
    else x :: insertByTsDesc e xs

/-- Sort a result set by timestamp, newest first. -/
def sortByTsDesc (rows : List TimelineEvent) : List TimelineEvent :=
  rows.foldr insertByTsDesc []

/-- The WHERE clause of `get_events`: a `category`/`action` filter is added
only when the argument is truthy (a non-empty string — `if category:`), and
the `since` filter is `timestamp >= ?` when a datetime is given (datetimes
are always truthy). -/
def eventMatches (category action : Option String) (since : Option DateTime)
    (e : TimelineEvent) : Bool :=
  (if (category.getD "").isEmpty then true else decide (e.category.value = category.getD "")) &&
  (if (action.getD "").isEmpty then true else decide (e.action.value = action.getD "")) &&
  (match since with
   | none => true
   | some s => decide (s.epoch ≤ e.timestamp.epoch))

/-- `get_events(category, action, since, limit, offset)` over the rows of the
`timeline_events` table: filter, `ORDER BY timestamp DESC`, then
`LIMIT ? OFFSET ?`. -/
def get_events (rows : List TimelineEvent) (category action : Option String)
    (since : Option DateTime) (limit offset : Nat) : List TimelineEvent :=
  ((sortByTsDesc (rows.filter (eventMatches category action since))).drop offset).take limit

/-- The four correlation rules named by the specification. -/
inductive Rule where
  | r1 | r2 | r3 | r4
  deriving DecidableEq

/-- Alert severity each rule assigns, as the specification states it. -/
def ruleSeverity : Rule → Severity
  | .r1 => .high
  | .r2 => .medium
  | .r3 => .high
  | .r4 => .critical

/-- Rule conditions as the specification states them, with `in_away(t)`
interpreted as the source's away-window membership (false on the empty
list). -/
def ruleFires (away_windows : List AwayWindow) (e : TimelineEvent) : Rule → Bool
  | .r1 => decide (e.action ∈ fileActions) && is_within_away_window e.timestamp away_windows
  | .r2 => decide (e.action = .active_during_away)
  | .r3 => decide (e.action = .login_failed)
  | .r4 => decide (e.action = .session_rdp) && is_within_away_window e.timestamp away_windows

/-- The subset of rules whose condition holds on an event, in rule order. -/
def firedRules (away_windows : List AwayWindow) (e : TimelineEvent) : List Rule :=
  [Rule.r1, Rule.r2, Rule.r3, Rule.r4].filter (ruleFires away_windows e)

theorem in_away_guard_eq (t : DateTime) (ws : List AwayWindow) :
    (if ws = [] then false else is_within_away_window t ws) =
      is_within_away_window t ws := by
  cases ws <;> simp [is_within_away_window]

/-- C2: rule evaluation fires exactly the rules whose condition holds, one
alert per fired rule with the stated severity. -/
theorem evaluate_fires_exact_rules (ws : List AwayWindow) (e : TimelineEvent) :
    (evaluate ws e).map Alert.severity = (firedRules ws e).map ruleSeverity := by
  obtain ⟨id, src, cat, act, subj, targ, det, sev, ts⟩ := e
  by_cases hw : ws = []
  · subst hw
    cases act <;>
      simp [evaluate, firedRules, ruleFires, ruleSeverity, fileActions, is_within_away_window]
  · by_cases h2 : is_within_away_window ts ws = true <;>
      cases act <;>
        simp_all [evaluate, firedRules, ruleFires, ruleSeverity, fileActions]

/-- C7: membership of a single enabled away window, by the three range cases
of the specification (`start == end` empty, `start < end` half-open,
`start > end` wrapping past midnight on the day on which `t` falls), and
exclusion of weekdays not listed in `w.days`. -/
theorem away_window_membership_cases (w : AwayWindow) (t : DateTime)
    (_hen : w.enabled = true) :
    (w.start_hour * 60 + w.start_minute = w.end_hour * 60 + w.end_minute →
       is_within_away_window t [w] = false)
  ∧ (w.start_hour * 60 + w.start_minute < w.end_hour * 60 + w.end_minute →
       (is_within_away_window t [w] = true ↔
         t.weekday ∈ w.days ∧ w.start_hour * 60 + w.start_minute ≤ t.hour * 60 + t.minute
           ∧ t.hour * 60 + t.minute < w.end_hour * 60 + w.end_minute))
  ∧ (w.start_hour * 60 + w.start_minute > w.end_hour * 60 + w.end_minute →
       (is_within_away_window t [w] = true ↔
         t.weekday ∈ w.days ∧ (t.hour * 60 + t.minute ≥ w.start_hour * 60 + w.start_minute
           ∨ t.hour * 60 + t.minute < w.end_hour * 60 + w.end_minute)))
  ∧ (t.weekday ∉ w.days → is_within_away_window t [w] = false) := by
  by_cases hd : t.weekday ∈ w.days
  · refine ⟨fun heq => ?_, fun hlt => ?_, fun hgt => ?_, fun hnd => absurd hd hnd⟩
    · simp [is_within_away_window, awayWindowMatches, hd, heq]
    · simp [is_within_away_window, awayWindowMatches, hd, Nat.le_of_lt hlt]
    · have : ¬(w.start_hour * 60 + w.start_minute ≤ w.end_hour * 60 + w.end_minute) := by omega
      simp [is_within_away_window, awayWindowMatches, hd, this]
  · refine ⟨fun _ => ?_, fun _ => ?_, fun _ => ?_, fun _ => ?_⟩ <;>
      simp [is_within_away_window, awayWindowMatches, hd]

/-- Witness for `away_window_membership_cases` at a concrete window and
instant: the 09:00-17:00 Monday-to-Friday window contains Monday 12:00. -/
theorem away_window_membership_cases_witness :
    ({ start_hour := 9, end_hour := 17, days := [0, 1, 2, 3, 4] } : AwayWindow).enabled = true
  ∧ is_within_away_window ⟨0, 0, 12, 0⟩
      [{ start_hour := 9, end_hour := 17, days := [0, 1, 2, 3, 4] }] = true :=
  ⟨by decide,
   ((away_window_membership_cases
      { start_hour := 9, end_hour := 17, days := [0, 1, 2, 3, 4] }
      ⟨0, 0, 12, 0⟩ (by decide)).2.1 (by decide)).mpr (by decide)⟩

theorem mem_insertByTsDesc (a e : TimelineEvent) (l : List TimelineEvent) :
    a ∈ insertByTsDesc e l ↔ a = e ∨ a ∈ l := by
  induction l with
  | nil => simp [insertByTsDesc]
  | cons x xs ih =>
    by_cases h : x.timestamp.epoch ≤ e.timestamp.epoch
    · simp [insertByTsDesc, h, ih]
    · simp [insertByTsDesc, h, ih]
      tauto

theorem mem_sortByTsDesc (a : TimelineEvent) (l : List TimelineEvent) :
    a ∈ sortByTsDesc l ↔ a ∈ l := by
  induction l with
  | nil => simp [sortByTsDesc]
  | cons x xs ih =>
    simp only [sortByTsDesc, List.foldr_cons, List.mem_cons] at *
    rw [mem_insertByTsDesc]
    tauto

theorem length_insertByTsDesc (e : TimelineEvent) (l : List TimelineEvent) :
    (insertByTsDesc e l).length = l.length + 1 := by
  induction l with
  | nil => simp [insertByTsDesc]
  | cons x xs ih =>
    by_cases h : x.timestamp.epoch ≤ e.timestamp.epoch <;>
      simp [insertByTsDesc, h, ih]

theorem length_sortByTsDesc (l : List TimelineEvent) :
    (sortByTsDesc l).length = l.length := by
  induction l with
  | nil => rfl
  | cons x xs ih => simp [sortByTsDesc, length_insertByTsDesc] at *; omega

/-- C10: the `since` filter of `get_events` is inclusive — with no
category/action filter, offset 0 and a limit as large as the table, the
result contains exactly the rows with `timestamp >= since`; in particular a
row whose timestamp equals `since` is returned. -/
theorem get_events_since_inclusive (rows : List TimelineEvent)
    (since : DateTime) (e : TimelineEvent) :
    e ∈ get_events rows none none (some since) rows.length 0 ↔
      e ∈ rows ∧ since.epoch ≤ e.timestamp.epoch := by
  have hlen : (sortByTsDesc (rows.filter (eventMatches none none (some since)))).length
      ≤ rows.length := by
    rw [length_sortByTsDesc]
    exact List.length_filter_le _ _
  rw [get_events, List.drop_zero, List.take_of_length_le hlen, mem_sortByTsDesc,
    List.mem_filter]
  simp [eventMatches]
  exact fun _ _ => ⟨Or.inl rfl, Or.inl rfl⟩

/-- A `login_failed` event exactly as `SessionMonitor._poll_loop` publishes it
(compare `src/tests/test_e2e.py`): the producer's own `detail` already
contains an `event_id` entry holding the numeric Windows event-log id. -/
def failedLoginEvent : TimelineEvent :=
  { id := "abc123def456"
    source := .session_monitor
    category := .session
    action := .login_failed
    detail := [("event_id", DVal.i 4625), ("source", DVal.s "Security"),
               ("message", DVal.s "bad password")]
    severity := "HIGH"
    timestamp := ⟨1000, 2, 10, 30⟩ }

/-- C1: on a session-monitor `login_failed` event, Rule 3's
`{"event_id": event.id, **event.detail}` merge lets the event's own
`event_id` entry (the Windows log id 4625) overwrite the originating
TimelineEvent id, so the persisted alert is not traceable to the event. -/
theorem alert_event_id_clobbered :
    evaluate [] failedLoginEvent =
      [{ severity := .high
         message := "Failed login attempt detected"
         source := "session_monitor"
         detail := [("event_id", DVal.i 4625), ("source", DVal.s "Security"),
                    ("message", DVal.s "bad password")] }]
  ∧ Detail.get? [("event_id", DVal.i 4625), ("source", DVal.s "Security"),
                 ("message", DVal.s "bad password")] "event_id"
      ≠ some (DVal.s failedLoginEvent.id) := by
  constructor
  · rfl
  · decide

/-- An away window disabled by configuration; `enabled` defaults to `true`
and is set to `false` here. -/
def disabledWindow : AwayWindow :=
  { start_hour := 0, end_hour := 23, end_minute := 59, enabled := false }

/-- C3: `_is_within_away_window` never reads `w.enabled` — a list holding
only a disabled window still covers Monday 12:00. -/
theorem disabled_window_not_ignored :
    disabledWindow.enabled = false
  ∧ is_within_away_window ⟨0, 0, 12, 0⟩ [disabledWindow] = true := by
  decide

/-- C8: with `poll_interval = 5`, `streak_threshold = 10`, a prior streak of 5
and an active sample (`idle = 0`), the poll step publishes
`active_during_away` although the only configured window is disabled — the
`enabled` flag is not consulted. -/
theorem poll_step_fires_on_disabled_window :
    input_poll_step 5 10 [disabledWindow] 5 0 ⟨0, 0, 12, 0⟩ =
      (0, some { id := ""
                 source := .input_monitor
                 category := .user_input
                 action := .active_during_away
                 detail := [("idle_seconds", DVal.q 0), ("streak_seconds", DVal.q 10)]
                 severity := "MEDIUM"
                 timestamp := ⟨0, 0, 12, 0⟩ })
  ∧ disabledWindow.enabled = false := by
  refine ⟨?_, rfl⟩
  have hidle : (0 : ℚ) < 5 := by norm_num
  have hstreak : (10 : ℚ) ≥ 10 := le_refl 10
  simp [input_poll_step, disabledWindow, is_within_away_window, awayWindowMatches,
    hidle, hstreak]
  norm_num

/-- A typical folder-monitor event, used as a concrete bus payload. -/
def sampleEvent : TimelineEvent :=
  { id := "e1aa00bb11cc"
    source := .folder_monitor
    category := .file_system
    action := .file_created
    target := "/tmp/a.txt"
    timestamp := ⟨10, 0, 9, 0⟩ }

/-- C4 counterexample: on a bounded bus (`maxsize = 1`) whose queue is full,
`publish` suspends the caller inside `asyncio.Queue.put`; it does not fail
(the codebase defines no `BackpressureExceeded`). -/
theorem full_bus_suspends_publisher :
    publish { maxsize := 1, items := [sampleEvent] } sampleEvent = PutOutcome.suspended
  ∧ BusQueue.full { maxsize := 1, items := [sampleEvent] } = true := by
  constructor <;> rfl

/-- C4 amended: `publish` suspends exactly when the bus is bounded and its
queue is full, and otherwise enqueues the event at the tail. -/
theorem publish_enqueues_or_suspends (q : BusQueue) (e : TimelineEvent) :
    (publish q e = PutOutcome.suspended ↔
      0 < q.maxsize ∧ q.maxsize ≤ (q.items.length : Int))
  ∧ (∀ q', publish q e = PutOutcome.enqueued q' →
      q'.maxsize = q.maxsize ∧ q'.items = q.items ++ [e]) := by
  by_cases h : 0 < q.maxsize ∧ q.maxsize ≤ (q.items.length : Int)
  · constructor
    · simp [publish, BusQueue.full, h]
    · intro q' hq'
      simp [publish, BusQueue.full, h] at hq'
  · constructor
    · simp [publish, BusQueue.full, h]
    · intro q' hq'
      simp [publish, BusQueue.full, h] at hq'
      rw [← hq']
      exact ⟨rfl, rfl⟩

/-- Witness for `publish_enqueues_or_suspends`: publishing on an empty
unbounded bus appends the event. -/
theorem publish_enqueues_or_suspends_witness :
    ({ maxsize := 0, items := [sampleEvent] } : BusQueue).maxsize =
      ({ maxsize := 0, items := [] } : BusQueue).maxsize
  ∧ ({ maxsize := 0, items := [sampleEvent] } : BusQueue).items =
      ({ maxsize := 0, items := [] } : BusQueue).items ++ [sampleEvent] :=
  (publish_enqueues_or_suspends { maxsize := 0, items := [] } sampleEvent).2
    { maxsize := 0, items := [sampleEvent] } rfl

/-- A record whose authoritative timestamp (epoch 50) lies at or before the
high-water mark used below (epoch 100), as an oracle may return when it
streams overlapping windows. -/
def staleRecord : RawRecord :=
  { event_id := 4624, timestamp := some ⟨50, 0, 0, 0⟩,
    source := some "S", message := some "old" }

/-- C5 counterexample: the poll cycle publishes a record the oracle returned
even though its timestamp (epoch 50) is ≤ the current high-water mark
(epoch 100) — the loop applies no timestamp filter of its own. -/
theorem stale_record_republished :
    (session_poll_cycle ⟨100, 0, 1, 0⟩ ⟨130, 0, 1, 30⟩ [staleRecord]).1 =
      [{ id := ""
         source := .session_monitor
         category := .session
         action := .session_logon
         detail := [("event_id", DVal.i 4624), ("source", DVal.s "S"),
                    ("message", DVal.s "old")]
         severity := "INFO"
         timestamp := ⟨50, 0, 0, 0⟩ }]
  ∧ (staleRecord.timestamp.getD ⟨130, 0, 1, 30⟩).epoch ≤ (100 : Int) := by
  constructor
  · rfl
  · decide

theorem sessionEventFor_timestamp (now : DateTime) (r : RawRecord)
    (te : TimelineEvent) (h : sessionEventFor now r = some te) :
    te.timestamp = r.timestamp.getD now := by
  unfold sessionEventFor at h
  cases hA : actionForEventId r.event_id with
  | none => rw [hA] at h; simp at h
  | some a =>
    rw [hA] at h
    simp at h
    rw [← h]

/-- C5 amended: the producer publishes stale records unfiltered, so freshness
rests on the oracle: (a) the native log reader returns only records with
timestamp strictly after `since` (it stops at the first older entry), and
(b) whenever every oracle record is strictly after `since`, every event the
poll cycle publishes has timestamp strictly after `since`. -/
theorem session_publishes_only_fresh (since now : DateTime)
    (recs : List RawRecord)
    (h : ∀ r ∈ recs, since.epoch < (r.timestamp.getD now).epoch) :
    (∀ te ∈ (session_poll_cycle since now recs).1,
       since.epoch < te.timestamp.epoch)
  ∧ (∀ ids entries, ∀ r ∈ read_events_blocking ids since entries,
       since.epoch < (r.timestamp.getD now).epoch) := by
  constructor
  · intro te hte
    simp only [session_poll_cycle, List.mem_filterMap] at hte
    obtain ⟨r, hr, hser⟩ := hte
    rw [sessionEventFor_timestamp now r te hser]
    exact h r hr
  · intro ids entries
    induction entries with
    | nil => intro r hr; simp [read_events_blocking] at hr
    | cons e rest ih =>
      intro r hr
      by_cases h1 : e.time.epoch ≤ since.epoch
      · simp [read_events_blocking, h1] at hr
      · by_cases h2 : e.event_id ∈ ids
        · simp only [read_events_blocking] at hr
          rw [if_neg h1, if_pos h2] at hr
          rcases List.mem_cons.mp hr with h3 | h3
          · subst h3; simpa using lt_of_not_le h1
          · exact ih r h3
        · simp only [read_events_blocking] at hr
          rw [if_neg h1, if_neg h2] at hr
          exact ih r hr

/-- A record strictly after the high-water mark, published by the witness. -/
def freshRecord : RawRecord :=
  { event_id := 4625, timestamp := some ⟨150, 0, 2, 0⟩,
    source := some "S", message := some "new" }

/-- The event `session_poll_cycle` builds for `freshRecord`. -/
def freshPublished : TimelineEvent :=
  { id := ""
    source := .session_monitor
    category := .session
    action := .login_failed
    detail := [("event_id", DVal.i 4625), ("source", DVal.s "S"),
               ("message", DVal.s "new")]
    severity := "HIGH"
    timestamp := ⟨150, 0, 2, 0⟩ }

/-- Witness for `session_publishes_only_fresh` on a concrete fresh record. -/
theorem session_publishes_only_fresh_witness :
    (⟨100, 0, 1, 0⟩ : DateTime).epoch < freshPublished.timestamp.epoch :=
  (session_publishes_only_fresh ⟨100, 0, 1, 0⟩ ⟨130, 0, 1, 30⟩ [freshRecord]
    (by decide)).1 freshPublished (by decide)

/-- An alert queued before the failing send. -/
def alertA : Alert :=
  { severity := .high, message := "first", source := "test", detail := [] }

/-- An alert appended to `_pending` while the failing send was in flight. -/
def alertB : Alert :=
  { severity := .low, message := "second", source := "test", detail := [] }

/-- C6 counterexample: when SMTP fails, `self._pending.extend(alerts)`
re-appends the snapshot at the BACK of `pending` — after the alert that
arrived during the send — not at the front as claimed. -/
theorem failed_send_requeues_at_back :
    (send_batch { last_sent := some 100, pending := [alertA] } 200 [alertB] false).1.pending
      = [alertB, alertA]
  ∧ ([alertB, alertA] : List Alert) ≠ [alertA, alertB] := by
  constructor
  · rfl
  · decide

/-- C6 amended: on SMTP failure `last_sent` is unchanged and the whole
snapshot is re-appended behind any alerts that arrived during the send, so
no alert is lost but the snapshot is retried after the newer arrivals. -/
theorem send_batch_failure_state (last_sent : Option Int)
    (pending arrivals : List Alert) (now : Int) (h : pending ≠ []) :
    (send_batch ⟨last_sent, pending⟩ now arrivals false).1.last_sent = last_sent
  ∧ (send_batch ⟨last_sent, pending⟩ now arrivals false).1.pending = arrivals ++ pending := by
  cases pending with
  | nil => exact absurd rfl h
  | cons a l => exact ⟨rfl, rfl⟩

/-- Witness for `send_batch_failure_state` on a concrete failing send. -/
theorem send_batch_failure_state_witness :
    (send_batch ⟨some 7, [alertA]⟩ 9 [alertB] false).1.last_sent = some 7
  ∧ (send_batch ⟨some 7, [alertA]⟩ 9 [alertB] false).1.pending = [alertB] ++ [alertA] :=
  send_batch_failure_state (some 7) [alertA] [alertB] 9 (by decide)

/-- A stored alert row that has not yet been snoozed. -/
def alertRowA : AlertRow :=
  { id := "a1", severity := .high }

/-- C9 counterexample: two successful snoozes on the same alert, the second
with an earlier instant (5 < 10), leave `snoozed_until = 5` — the stored
value decreased, so it is not monotonic. -/
theorem snooze_replaced_by_earlier :
    (snooze_alert (snooze_alert [alertRowA] "a1" 10).1 "a1" 5).1
      = [{ alertRowA with snoozed_until := some 5 }]
  ∧ (snooze_alert [alertRowA] "a1" 10).2 = true
  ∧ (snooze_alert (snooze_alert [alertRowA] "a1" 10).1 "a1" 5).2 = true
  ∧ (5 : Int) < 10 := by
  refine ⟨by decide, by decide, by decide, by decide⟩

theorem snooze_sets_matching_rows (table : List AlertRow) (id : String) (u : Int) :
    ∀ r ∈ (snooze_alert table id u).1, r.id = id → r.snoozed_until = some u := by
  intro r hr hrid
  simp only [snooze_alert, List.mem_map] at hr
  obtain ⟨s, _, hdef⟩ := hr
  by_cases h1 : s.id = id
  · rw [if_pos h1] at hdef
    rw [← hdef]
  · rw [if_neg h1] at hdef
    rw [← hdef] at hrid
    exact absurd hrid h1

/-- C9 amended: `snooze_alert` is last-write-wins — after any two snoozes of
the same id, every matching row stores the second instant (even when it is
earlier), and the second call reports success exactly as the first did. -/
theorem snooze_last_write_wins (table : List AlertRow) (id : String) (u1 u2 : Int) :
    (∀ r ∈ (snooze_alert (snooze_alert table id u1).1 id u2).1,
       r.id = id → r.snoozed_until = some u2)
  ∧ (snooze_alert (snooze_alert table id u1).1 id u2).2 = (snooze_alert table id u1).2 := by
  constructor
  · exact snooze_sets_matching_rows _ id u2
  · simp only [snooze_alert, List.any_map]
    congr 1
    funext s
    by_cases h : s.id = id <;> simp [h]

/-- Witness for `snooze_last_write_wins`: snoozing `a1` to 10 then to 5
leaves the stored instant 5. -/
theorem snooze_last_write_wins_witness :
    ({ alertRowA with snoozed_until := some 5 } : AlertRow).snoozed_until = some 5 :=
  (snooze_last_write_wins [alertRowA] "a1" 10 5).1
    { alertRowA with snoozed_until := some 5 } (by decide) (by decide)
